import Mathlib

set_option maxRecDepth 100000

/-!
Shallow embedding of `doc/sentry_contrib_native/sidebar-items.js`, the
rustdoc implementors-index script of the `sentry-contrib-native`
documentation site.  The script is a load-time IIFE that

1. builds a string-keyed object `implementors` holding, per crate
   (module key), an ordered array of implementor-record literals
   (`text`, `synthetic`, `types`), and
2. publishes it: if `window.register_implementors` is installed it is
   called once with the object, otherwise the object is stored in
   `window.pending_implementors`.

Objects become insertion-ordered association lists, the window becomes
an explicit state record, and consumer calls become an explicit event
list returned alongside the post-state.
-/

/-- One record literal of the script, shaped
`\x7b"text": ..., "synthetic": ..., "types": [...]\x7d`. -/
structure ImplementorRecord where
  text : String
  synthetic : Bool
  types : List String
deriving DecidableEq

/-- The registry object: an insertion-ordered mapping from a module key
(crate name) to its ordered sequence of implementor records, as built by
the two assignments `implementors["..."] = [...]` of the script. -/
abbrev Registry := List (String × List ImplementorRecord)

/-- The five record literals assigned to `implementors["sentry_contrib_native"]`. -/
def nativeRecords : List ImplementorRecord :=
  [ { text := "impl <a class=\"trait\" href=\"https://doc.rust-lang.org/nightly/core/marker/trait.Copy.html\" title=\"trait core::marker::Copy\">Copy</a> for <a class=\"struct\" href=\"sentry_contrib_native/struct.Uuid.html\" title=\"struct sentry_contrib_native::Uuid\">Uuid</a>",
      synthetic := false,
      types := ["sentry_contrib_native::event::Uuid"] },
    { text := "impl <a class=\"trait\" href=\"https://doc.rust-lang.org/nightly/core/marker/trait.Copy.html\" title=\"trait core::marker::Copy\">Copy</a> for <a class=\"enum\" href=\"sentry_contrib_native/options/enum.Ownership.html\" title=\"enum sentry_contrib_native::options::Ownership\">Ownership</a>",
      synthetic := false,
      types := ["sentry_contrib_native::options::Ownership"] },
    { text := "impl <a class=\"trait\" href=\"https://doc.rust-lang.org/nightly/core/marker/trait.Copy.html\" title=\"trait core::marker::Copy\">Copy</a> for <a class=\"enum\" href=\"sentry_contrib_native/enum.TransportShutdown.html\" title=\"enum sentry_contrib_native::TransportShutdown\">Shutdown</a>",
      synthetic := false,
      types := ["sentry_contrib_native::transport::Shutdown"] },
    { text := "impl <a class=\"trait\" href=\"https://doc.rust-lang.org/nightly/core/marker/trait.Copy.html\" title=\"trait core::marker::Copy\">Copy</a> for <a class=\"enum\" href=\"sentry_contrib_native/enum.Level.html\" title=\"enum sentry_contrib_native::Level\">Level</a>",
      synthetic := false,
      types := ["sentry_contrib_native::Level"] },
    { text := "impl <a class=\"trait\" href=\"https://doc.rust-lang.org/nightly/core/marker/trait.Copy.html\" title=\"trait core::marker::Copy\">Copy</a> for <a class=\"enum\" href=\"sentry_contrib_native/enum.Consent.html\" title=\"enum sentry_contrib_native::Consent\">Consent</a>",
      synthetic := false,
      types := ["sentry_contrib_native::Consent"] } ]

/-- The eight record literals assigned to `implementors["sentry_contrib_native_sys"]`. -/
def sysRecords : List ImplementorRecord :=
  [ { text := "impl <a class=\"trait\" href=\"https://doc.rust-lang.org/nightly/core/marker/trait.Copy.html\" title=\"trait core::marker::Copy\">Copy</a> for <a class=\"struct\" href=\"sentry_contrib_native_sys/struct.Options.html\" title=\"struct sentry_contrib_native_sys::Options\">Options</a>",
      synthetic := false,
      types := ["sentry_contrib_native_sys::Options"] },
    { text := "impl <a class=\"trait\" href=\"https://doc.rust-lang.org/nightly/core/marker/trait.Copy.html\" title=\"trait core::marker::Copy\">Copy</a> for <a class=\"union\" href=\"sentry_contrib_native_sys/union.Value.html\" title=\"union sentry_contrib_native_sys::Value\">Value</a>",
      synthetic := false,
      types := ["sentry_contrib_native_sys::Value"] },
    { text := "impl <a class=\"trait\" href=\"https://doc.rust-lang.org/nightly/core/marker/trait.Copy.html\" title=\"trait core::marker::Copy\">Copy</a> for <a class=\"struct\" href=\"sentry_contrib_native_sys/struct.Uuid.html\" title=\"struct sentry_contrib_native_sys::Uuid\">Uuid</a>",
      synthetic := false,
      types := ["sentry_contrib_native_sys::Uuid"] },
    { text := "impl <a class=\"trait\" href=\"https://doc.rust-lang.org/nightly/core/marker/trait.Copy.html\" title=\"trait core::marker::Copy\">Copy</a> for <a class=\"enum\" href=\"sentry_contrib_native_sys/enum.Level.html\" title=\"enum sentry_contrib_native_sys::Level\">Level</a>",
      synthetic := false,
      types := ["sentry_contrib_native_sys::Level"] },
    { text := "impl <a class=\"trait\" href=\"https://doc.rust-lang.org/nightly/core/marker/trait.Copy.html\" title=\"trait core::marker::Copy\">Copy</a> for <a class=\"enum\" href=\"sentry_contrib_native_sys/enum.ValueType.html\" title=\"enum sentry_contrib_native_sys::ValueType\">ValueType</a>",
      synthetic := false,
      types := ["sentry_contrib_native_sys::ValueType"] },
    { text := "impl <a class=\"trait\" href=\"https://doc.rust-lang.org/nightly/core/marker/trait.Copy.html\" title=\"trait core::marker::Copy\">Copy</a> for <a class=\"enum\" href=\"sentry_contrib_native_sys/enum.UserConsent.html\" title=\"enum sentry_contrib_native_sys::UserConsent\">UserConsent</a>",
      synthetic := false,
      types := ["sentry_contrib_native_sys::UserConsent"] },
    { text := "impl <a class=\"trait\" href=\"https://doc.rust-lang.org/nightly/core/marker/trait.Copy.html\" title=\"trait core::marker::Copy\">Copy</a> for <a class=\"struct\" href=\"sentry_contrib_native_sys/struct.Transport.html\" title=\"struct sentry_contrib_native_sys::Transport\">Transport</a>",
      synthetic := false,
      types := ["sentry_contrib_native_sys::Transport"] },
    { text := "impl <a class=\"trait\" href=\"https://doc.rust-lang.org/nightly/core/marker/trait.Copy.html\" title=\"trait core::marker::Copy\">Copy</a> for <a class=\"struct\" href=\"sentry_contrib_native_sys/struct.Envelope.html\" title=\"struct sentry_contrib_native_sys::Envelope\">Envelope</a>",
      synthetic := false,
      types := ["sentry_contrib_native_sys::Envelope"] } ]

/-- The full registry object after both assignments, in insertion order:
`var implementors = \x7b\x7d;` followed by the two keyed assignments. -/
def implementors : Registry :=
  [ ("sentry_contrib_native", nativeRecords),
    ("sentry_contrib_native_sys", sysRecords) ]

/-- `build()`: the registry-construction part of the script (lines 1-3 of
the IIFE), a pure function of the embedded literal data. -/
def build (_ : Unit) : Registry := implementors

/-- The process-wide window state the script touches: whether the host's
`register_implementors` callback is installed, and the content of the
`pending_implementors` slot (`none` when the property is absent). -/
structure WindowState where
  hasConsumer : Bool
  pending : Option Registry
deriving DecidableEq

/-- `publish(registry)`: the final line of the IIFE,
`if (window.register_implementors) \x7b window.register_implementors(implementors); \x7d
else \x7b window.pending_implementors = implementors; \x7d`.
Returns the post-state together with the ordered list of consumer
invocations performed, each carrying its argument. -/
def publish (reg : Registry) (w : WindowState) : WindowState × List Registry :=
  if w.hasConsumer then (w, [reg])
  else ({ w with pending := some reg }, [])

/-- The whole IIFE, executed once at script load: build the registry from
the literal data, then publish it. -/
def runScript (w : WindowState) : WindowState × List Registry :=
  publish (build ()) w

/-- All records of a registry, flattened in module order then record
order. -/
def allRecords (reg : Registry) : List ImplementorRecord :=
  (reg.map Prod.snd).flatten

/-- The external log kept by a consumer that appends every record it
receives: each invocation contributes all records of its argument in
order. -/
def consumerLog (invs : List Registry) : List ImplementorRecord :=
  (invs.map allRecords).flatten

/-- The attribute marker that introduces the trait path inside a
record's display text. -/
def titleMarker : String := "title=\"trait "

/-- Take characters up to (excluding) the first double quote. -/
def takeToQuote : List Char → List Char
  | [] => []
  | c :: cs => if c = Char.ofNat 34 then [] else c :: takeToQuote cs

/-- Drop characters through the first occurrence of `marker`; `none` if
the marker never occurs. -/
def dropThroughMarker (marker : List Char) : List Char → Option (List Char)
  | [] => none
  | c :: cs =>
    if marker.isPrefixOf (c :: cs) then some ((c :: cs).drop marker.length)
    else dropThroughMarker marker cs

/-- The trait path a record registers, as carried by the
`title="trait ..."` attribute of the trait anchor in its display text
(the empty string if the attribute is absent). -/
def traitPath (r : ImplementorRecord) : String :=
  match dropThroughMarker titleMarker.data r.text.data with
  | some rest => String.mk (takeToQuote rest)
  | none => ""

/-- A default record value, used only to pick out the head of the built
record list. -/
def emptyRecord : ImplementorRecord := ⟨"", false, []⟩

/-- The lifecycle phases of the registry component: `unpublished` is the
initial state, `published` the terminal one. -/
inductive Phase where
  | unpublished
  | published
deriving DecidableEq

/-- The lifecycle transition relation: the script's single load-time
`publish()` is the only transition, moving `unpublished` to
`published`. -/
inductive PhaseStep : Phase → Phase → Prop where
  | publishStep : PhaseStep Phase.unpublished Phase.published

/-- C1: Publish exclusivity — for every initial window state exactly one
of the two publish paths executes: with a consumer handle present the
consumer is invoked exactly once with the built registry and the pending
slot keeps its prior value; without one the pending slot holds exactly
the built registry and no invocation occurs; never both. -/
theorem publish_exclusivity (w : WindowState) :
    Xor'
      ((runScript w).2 = [build ()] ∧ (runScript w).1.pending = w.pending ∧
        w.hasConsumer = true)
      ((runScript w).1.pending = some (build ()) ∧ (runScript w).2 = [] ∧
        w.hasConsumer = false) := by
  obtain ⟨c, p⟩ := w
  show _ ∨ _
  cases c with
  | false =>
      refine Or.inr ⟨⟨rfl, rfl, rfl⟩, ?_⟩
      rintro ⟨-, -, h⟩
      simp at h
  | true =>
      refine Or.inl ⟨⟨rfl, rfl, rfl⟩, ?_⟩
      rintro ⟨-, -, h⟩
      simp at h

/-- C2: after `publish()` with no pre-registered consumer, the pending
slot holds a mapping whose keys are exactly `sentry_contrib_native` and
`sentry_contrib_native_sys`, with record sequences of lengths 5 and 8. -/
theorem pending_slot_shape (p : Option Registry) :
    ∃ reg, (runScript ⟨false, p⟩).1.pending = some reg ∧
      reg.map Prod.fst = ["sentry_contrib_native", "sentry_contrib_native_sys"] ∧
      reg.map (fun kv => kv.2.length) = [5, 8] :=
  ⟨implementors, rfl, by decide, by decide⟩

/-- C3: frame condition on the consumer path — for every prior pending
value, with a consumer pre-registered the log of all records the
consumer receives has exactly 13 entries and the pending slot keeps its
prior value. -/
theorem consumer_log_frame (p : Option Registry) :
    (consumerLog (runScript ⟨true, p⟩).2).length = 13 ∧
    (runScript ⟨true, p⟩).1.pending = p := by
  refine ⟨?_, rfl⟩
  show (consumerLog [build ()]).length = 13
  decide

/-- C4: `build()` is a pure function of the embedded literal data —
invoking it twice yields structurally equal registry mappings. -/
theorem build_idempotent :
    build () = build () ∧ ∀ u v : Unit, build u = build v :=
  ⟨rfl, fun _ _ => rfl⟩

/-- C5: `build()` is infallible — it is a total function of no
meaningful input that always produces the embedded mapping, with no
failure branch (it returns a `Registry` value, not an error-carrying
type). -/
theorem build_infallible : ∀ u : Unit, build u = implementors :=
  fun _ => rfl

/-- C6: in the built registry, every module key maps to a non-empty
ordered record sequence. -/
theorem module_sequences_nonempty :
    ∀ kv ∈ build (), kv.2 ≠ [] := by decide

/-- C6 witness at the first module entry. -/
theorem module_sequences_nonempty_witness :
    ("sentry_contrib_native", nativeRecords) ∈ build () ∧ nativeRecords ≠ [] :=
  ⟨by decide,
   module_sequences_nonempty ("sentry_contrib_native", nativeRecords) (by decide)⟩

/-- C7: idempotent registration — within each module key, any two
distinct records registering the same trait path have different
`types` values. -/
theorem no_duplicate_registration :
    ∀ kv ∈ build (),
      kv.2.Pairwise (fun a b => traitPath a = traitPath b → a.types ≠ b.types) := by
  decide

/-- C7 witness at the `sentry_contrib_native_sys` entry. -/
theorem no_duplicate_registration_witness :
    ("sentry_contrib_native_sys", sysRecords) ∈ build () ∧
    sysRecords.Pairwise (fun a b => traitPath a = traitPath b → a.types ≠ b.types) :=
  ⟨by decide,
   no_duplicate_registration ("sentry_contrib_native_sys", sysRecords) (by decide)⟩

/-- C8: single-publish lifecycle — every lifecycle step is the publish
transition from `unpublished` to `published`, no step leaves
`published`, and the script only ever hands off the built registry
unchanged (each consumer invocation carries it, and the pending slot is
either untouched or holds exactly it). -/
theorem single_publish_lifecycle :
    (∀ p q, PhaseStep p q → p = Phase.unpublished ∧ q = Phase.published) ∧
    (∀ q, ¬ PhaseStep Phase.published q) ∧
    (∀ w, ∀ reg ∈ (runScript w).2, reg = build ()) ∧
    (∀ w, (runScript w).1.pending = w.pending ∨
       (runScript w).1.pending = some (build ())) := by
  refine ⟨?_, ?_, ?_, ?_⟩
  · rintro p q h
    cases h
    exact ⟨rfl, rfl⟩
  · rintro q h
    cases h
  · rintro ⟨c, p⟩ reg hr
    cases c with
    | false => simp [runScript, publish] at hr
    | true =>
        simp [runScript, publish] at hr
        exact hr
  · rintro ⟨c, p⟩
    cases c with
    | false => exact Or.inr rfl
    | true => exact Or.inl rfl

/-- C8 witness: the publish step exists and the theorem classifies it. -/
theorem single_publish_lifecycle_witness :
    PhaseStep Phase.unpublished Phase.published ∧
    (Phase.unpublished = Phase.unpublished ∧ Phase.published = Phase.published) :=
  ⟨PhaseStep.publishStep,
   single_publish_lifecycle.1 Phase.unpublished Phase.published PhaseStep.publishStep⟩

/-- C9: uniform record shape — every record of the built registry has
`synthetic = false` and registers the single trait
`core::marker::Copy`. -/
theorem uniform_record_shape :
    ∀ r ∈ allRecords (build ()),
      r.synthetic = false ∧ traitPath r = "core::marker::Copy" := by
  decide

/-- C9 witness at the first record of the built registry. -/
theorem uniform_record_shape_witness :
    (allRecords (build ())).headD emptyRecord ∈ allRecords (build ()) ∧
    ((allRecords (build ())).headD emptyRecord).synthetic = false :=
  ⟨by decide,
   (uniform_record_shape ((allRecords (build ())).headD emptyRecord) (by decide)).1⟩

/-- C10: two-run determinism — two executions of the whole script from
equal initial window states produce the same consumer-invocation
sequence and the same final pending-slot value. -/
theorem run_two_executions_identical (w₁ w₂ : WindowState) (h : w₁ = w₂) :
    (runScript w₁).2 = (runScript w₂).2 ∧
    (runScript w₁).1.pending = (runScript w₂).1.pending := by
  subst h
  exact ⟨rfl, rfl⟩

/-- C10 witness at a concrete initial state. -/
theorem run_two_executions_identical_witness :
    (⟨false, none⟩ : WindowState) = ⟨false, none⟩ ∧
    ((runScript ⟨false, none⟩).2 = (runScript ⟨false, none⟩).2 ∧
     (runScript ⟨false, none⟩).1.pending = (runScript ⟨false, none⟩).1.pending) :=
  ⟨rfl, run_two_executions_identical ⟨false, none⟩ ⟨false, none⟩ rfl⟩
